import Mathlib

/-!
Shallow embedding of the autonomous trading bot (decision core of the
repository).  JavaScript numbers are modelled as exact rationals (ℚ),
block heights as integers (ℤ), timestamps as rationals.  The square root
used by the Bollinger-band computation is abstracted as an explicit
function parameter.  Fallible external calls (RPC reads, order
submission) are modelled by boolean oracles passed as arguments.
-/

/-- One entry of a per-asset price history: `{ time, price }`. -/
structure PriceSample where
  time : ℚ
  price : ℚ
  deriving DecidableEq, Repr

/-- Latest indicator values for one asset (`state.indicators[asset]`). -/
structure Indicators where
  smaFast : ℚ
  smaSlow : ℚ
  ema12 : ℚ
  ema26 : ℚ
  rsi : ℚ
  macd : ℚ
  macdSignalLine : ℚ
  macdHist : ℚ
  bbUpper : ℚ
  bbMiddle : ℚ
  bbLower : ℚ
  bbPctB : ℚ
  deriving DecidableEq, Repr

/-- Initial indicator values from the `state` literal. -/
def Indicators.init : Indicators :=
  { smaFast := 0, smaSlow := 0, ema12 := 0, ema26 := 0, rsi := 50,
    macd := 0, macdSignalLine := 0, macdHist := 0,
    bbUpper := 0, bbMiddle := 0, bbLower := 0, bbPctB := 1/2 }

/-- Persistent smoothing accumulators for one asset (`emaState[asset]`);
`none` models JavaScript `null`. -/
structure EmaState where
  ema12 : Option ℚ
  ema26 : Option ℚ
  macdEma9 : Option ℚ
  rsiAvgGain : Option ℚ
  rsiAvgLoss : Option ℚ
  deriving DecidableEq, Repr

def EmaState.init : EmaState :=
  { ema12 := none, ema26 := none, macdEma9 := none,
    rsiAvgGain := none, rsiAvgLoss := none }

/-- The five named sub-signals of `generateSignal`'s `details` object. -/
structure SignalDetails where
  sma : ℚ
  rsi : ℚ
  macd : ℚ
  bb : ℚ
  trend : ℚ
  deriving DecidableEq, Repr

/-- Mutable configuration (`CONFIG`, copied into `state.config`). -/
structure Config where
  minTradeETH : ℚ
  gasReserveETH : ℚ
  slippageBps : ℚ
  minProfitBps : ℚ
  maxPositionPct : ℚ
  maxDrawdownPct : ℚ
  trailingStopPct : ℚ
  cooldownBlocks : ℤ
  maxTradesPerHour : ℚ
  smaFast : ℕ
  smaSlow : ℕ
  emaFast : ℕ
  emaSlow : ℕ
  macdSignalPeriod : ℕ
  rsiPeriod : ℕ
  bbPeriod : ℕ
  bbStdDev : ℚ
  minConfluence : ℚ
  deriving DecidableEq, Repr

/-- Default `CONFIG` values of the source. -/
def Config.default : Config :=
  { minTradeETH := 0.005, gasReserveETH := 0.015, slippageBps := 300,
    minProfitBps := 50, maxPositionPct := 0.6, maxDrawdownPct := 0.15,
    trailingStopPct := 0.05, cooldownBlocks := 10, maxTradesPerHour := 6,
    smaFast := 10, smaSlow := 30, emaFast := 12, emaSlow := 26,
    macdSignalPeriod := 9, rsiPeriod := 14, bbPeriod := 20, bbStdDev := 2,
    minConfluence := 0.35 }

/-- The assets the bot can mention in a trade record or instruction. -/
inductive Token where
  | ETH
  | WETH
  | LINK
  | USDC
  deriving DecidableEq, Repr

/-- The `'WRAP'` / `'SWAP'` tags of `recordTrade`. -/
inductive TradeKind where
  | wrap
  | swap
  deriving DecidableEq, Repr

/-- One entry of `state.tradeHistory`. -/
structure TradeRecord where
  time : ℚ
  kind : TradeKind
  fromAsset : Token
  toAsset : Token
  amountIn : ℚ
  amountOut : ℚ
  ethPrice : ℚ
  linkPrice : ℚ
  block : ℤ
  deriving DecidableEq, Repr

/-- Tags for the risk issues pushed by `checkRisk` (the formatted
message strings are abstracted to their condition tags). -/
inductive Issue where
  | maxDrawdown
  | cooldown
  | rateLimit
  | highGas
  | lowGasReserve
  deriving DecidableEq, Repr

structure RiskResult where
  ok : Bool
  issues : List Issue
  deriving DecidableEq, Repr

/-- The single trade instruction an invocation of the strategy can
dispatch: either a `wrapETH` call or a `swapExact` call. -/
structure TradeInstruction where
  kind : TradeKind
  tokenIn : Token
  tokenOut : Token
  amount : ℚ
  deriving DecidableEq, Repr

/-- The mutable bot state (the fields of the `state` object that the
decision core reads or writes, plus the `emaState` accumulators). -/
structure BotState where
  running : Bool
  ethBalance : ℚ
  wethBalance : ℚ
  linkBalance : ℚ
  usdcBalance : ℚ
  ethPrice : ℚ
  linkPrice : ℚ
  ethPriceHistory : List PriceSample
  linkPriceHistory : List PriceSample
  ethIndicators : Indicators
  linkIndicators : Indicators
  ethEma : EmaState
  linkEma : EmaState
  sigEth : ℚ
  sigLink : ℚ
  sigEthDetails : SignalDetails
  sigLinkDetails : SignalDetails
  lastBlock : ℤ
  lastTradeBlock : ℤ
  tradesExecuted : ℕ
  tradeHistory : List TradeRecord
  portfolioPeakUSD : ℚ
  currentDrawdown : ℚ
  drawdownHalted : Bool
  gasPrice : ℚ
  config : Config
  deriving DecidableEq, Repr

-- ══════════════════════════════════════════
--  TECHNICAL INDICATORS
-- ══════════════════════════════════════════

/-- Source function `calcSMA(prices, period)`: mean of the last `period` prices, `null`
when not enough samples. -/
def calcSMA (prices : List PriceSample) (period : ℕ) : Option ℚ :=
  if prices.length < period then none
  else
    let slice := prices.drop (prices.length - period)
    some ((slice.foldl (fun s p => s + p.price) 0) / (period : ℚ))

/-- Source function `calcEMA(newPrice, prevEMA, period)`. -/
def calcEMA (newPrice : ℚ) (prevEMA : Option ℚ) (period : ℕ) : ℚ :=
  match prevEMA with
  | none => newPrice
  | some prev =>
      let k : ℚ := 2 / ((period : ℚ) + 1)
      newPrice * k + prev * (1 - k)

structure RsiResult where
  rsi : ℚ
  avgGain : Option ℚ
  avgLoss : Option ℚ
  deriving DecidableEq, Repr

/-- Accumulate `(gains, losses)` over consecutive price changes: a
positive change adds to gains, otherwise its absolute value adds to
losses (the loop body of the RSI bootstrap). -/
def gainsLosses : List ℚ → ℚ × ℚ
  | [] => (0, 0)
  | [_] => (0, 0)
  | a :: b :: rest =>
      let r := gainsLosses (b :: rest)
      let change := b - a
      if change > 0 then (r.1 + change, r.2) else (r.1 + 0, r.2 + |change|)

/-- Source function `calcRSI(prices, period, prevAvgGain, prevAvgLoss)`.  JavaScript
`null` arithmetic (`null * n = 0`) is reflected by `Option.getD 0` for
the loss accumulator on the smoothed path. -/
def calcRSI (prices : List PriceSample) (period : ℕ)
    (prevAvgGain prevAvgLoss : Option ℚ) : RsiResult :=
  if prices.length < period + 1 then { rsi := 50, avgGain := none, avgLoss := none }
  else
    match prevAvgGain with
    | none =>
        let recent := prices.drop (prices.length - (period + 1))
        let gl := gainsLosses (recent.map (·.price))
        let avgGain := gl.1 / (period : ℚ)
        let avgLoss := gl.2 / (period : ℚ)
        let rs := if avgLoss = 0 then 100 else avgGain / avgLoss
        { rsi := 100 - 100 / (1 + rs), avgGain := some avgGain, avgLoss := some avgLoss }
    | some pg =>
        let change :=
          ((prices.drop (prices.length - 1)).headD ⟨0, 0⟩).price -
          ((prices.drop (prices.length - 2)).headD ⟨0, 0⟩).price
        let gain := if change > 0 then change else 0
        let loss := if change < 0 then |change| else 0
        let pl := prevAvgLoss.getD 0
        let avgGain := (pg * ((period : ℚ) - 1) + gain) / (period : ℚ)
        let avgLoss := (pl * ((period : ℚ) - 1) + loss) / (period : ℚ)
        let rs := if avgLoss = 0 then 100 else avgGain / avgLoss
        { rsi := 100 - 100 / (1 + rs), avgGain := some avgGain, avgLoss := some avgLoss }

structure BollingerBands where
  upper : ℚ
  middle : ℚ
  lower : ℚ
  pctB : ℚ
  deriving DecidableEq, Repr

/-- The values of the Bollinger window: last `period` prices. -/
def bbValues (prices : List PriceSample) (period : ℕ) : List ℚ :=
  (prices.drop (prices.length - period)).map (·.price)

/-- Mean over the Bollinger window. -/
def bbMean (prices : List PriceSample) (period : ℕ) : ℚ :=
  (bbValues prices period).foldl (· + ·) 0 / (period : ℚ)

/-- Population variance over the Bollinger window. -/
def bbVariance (prices : List PriceSample) (period : ℕ) : ℚ :=
  let mean := bbMean prices period
  ((bbValues prices period).foldl (fun s v => s + (v - mean) ^ 2) 0) / (period : ℚ)

/-- Source function `calcBollingerBands(prices, period, stdDevMult)`, parameterised by
the square-root function `sqrtFn` (the source uses `Math.sqrt`). -/
def calcBollingerBands (sqrtFn : ℚ → ℚ) (prices : List PriceSample)
    (period : ℕ) (stdDevMult : ℚ) : Option BollingerBands :=
  if prices.length < period then none
  else
    let values := bbValues prices period
    let mean := bbMean prices period
    let stdDev := sqrtFn (bbVariance prices period)
    let upper := mean + stdDevMult * stdDev
    let lower := mean - stdDevMult * stdDev
    let pctB := if stdDev = 0 then 1/2 else (values.getLastD 0 - lower) / (upper - lower)
    some { upper := upper, middle := mean, lower := lower,
           pctB := max 0 (min 1 pctB) }

/-- JavaScript `x || d` for a number-or-null `x`: both `null` and `0`
fall back to the default. -/
def jsOr (x : Option ℚ) (d : ℚ) : ℚ :=
  match x with
  | none => d
  | some v => if v = 0 then d else v

/-- Source function `updateIndicators(asset, priceHistory)`: returns the new smoothing
accumulators and indicator snapshot. -/
def updateIndicators (sqrtFn : ℚ → ℚ) (cfg : Config) (es : EmaState)
    (ind : Indicators) (prices : List PriceSample) : EmaState × Indicators :=
  let currentPrice := if prices.length > 0 then (prices.getLastD ⟨0, 0⟩).price else 0
  let smaFast := jsOr (calcSMA prices cfg.smaFast) currentPrice
  let smaSlow := jsOr (calcSMA prices cfg.smaSlow) currentPrice
  let ema12 := calcEMA currentPrice es.ema12 cfg.emaFast
  let ema26 := calcEMA currentPrice es.ema26 cfg.emaSlow
  let macd := ema12 - ema26
  let macdEma9 := calcEMA macd es.macdEma9 cfg.macdSignalPeriod
  let macdHist := macd - macdEma9
  let rsiResult := calcRSI prices cfg.rsiPeriod es.rsiAvgGain es.rsiAvgLoss
  let bb := calcBollingerBands sqrtFn prices cfg.bbPeriod cfg.bbStdDev
  let es' : EmaState :=
    { ema12 := some ema12, ema26 := some ema26, macdEma9 := some macdEma9,
      rsiAvgGain := rsiResult.avgGain, rsiAvgLoss := rsiResult.avgLoss }
  let ind' : Indicators :=
    { smaFast := smaFast, smaSlow := smaSlow, ema12 := ema12, ema26 := ema26,
      rsi := rsiResult.rsi, macd := macd, macdSignalLine := macdEma9,
      macdHist := macdHist,
      bbUpper := match bb with | some b => b.upper | none => ind.bbUpper,
      bbMiddle := match bb with | some b => b.middle | none => ind.bbMiddle,
      bbLower := match bb with | some b => b.lower | none => ind.bbLower,
      bbPctB := match bb with | some b => b.pctB | none => ind.bbPctB }
  (es', ind')

-- ══════════════════════════════════════════
--  SIGNAL GENERATOR
-- ══════════════════════════════════════════

structure SignalOut where
  composite : ℚ
  details : SignalDetails
  deriving DecidableEq, Repr

/-- Clamp to `[-1, 1]` (`Math.max(-1, Math.min(1, x))`). -/
def clamp1 (x : ℚ) : ℚ := max (-1) (min 1 x)

/-- Source function `generateSignal(asset)`, as a function of the asset's indicator
snapshot and price history. -/
def generateSignal (cfg : Config) (ind : Indicators)
    (prices : List PriceSample) : SignalOut :=
  if prices.length < cfg.smaSlow then
    { composite := 0, details := { sma := 0, rsi := 0, macd := 0, bb := 0, trend := 0 } }
  else
    let dSma := if ind.smaSlow > 0 then
        clamp1 ((ind.smaFast - ind.smaSlow) / ind.smaSlow * 20) else 0
    let dRsi := if ind.rsi ≤ 30 then (30 - ind.rsi) / 30
        else if ind.rsi ≥ 70 then -(ind.rsi - 70) / 30 else 0
    let dMacd := if ind.bbMiddle > 0 then
        clamp1 (ind.macdHist / ind.bbMiddle * 100) else 0
    let dBb := -(ind.bbPctB - 1/2) * 2
    let currentPrice := (prices.getLastD ⟨0, 0⟩).price
    let dTrend := if ind.smaSlow > 0 then
        clamp1 ((currentPrice - ind.smaSlow) / ind.smaSlow * 10) else 0
    let composite := dSma * 0.25 + dRsi * 0.20 + dMacd * 0.20 + dBb * 0.20 + dTrend * 0.15
    { composite := clamp1 composite,
      details := { sma := dSma, rsi := dRsi, macd := dMacd, bb := dBb, trend := dTrend } }

-- ══════════════════════════════════════════
--  PRICE ENGINE
-- ══════════════════════════════════════════

/-- Source function `decodeSqrtPrice(sqrtPriceX96, decimals0, decimals1)`:
`(sqrtPriceX96 / 2^96)^2 * 10^(decimals0 - decimals1)`. -/
def decodeSqrtPrice (sqrtPriceX96 : ℚ) (decimals0 decimals1 : ℤ) : ℚ :=
  let sqrtPrice := sqrtPriceX96 / 2 ^ 96
  let priceRaw := sqrtPrice * sqrtPrice
  priceRaw * (10 : ℚ) ^ (decimals0 - decimals1)

/-- Append a sample for ETH when `state.ethPrice > 0`: push, trim the
history at 500 samples, and update the ETH indicators. -/
def pushEthSample (sqrtFn : ℚ → ℚ) (now : ℚ) (s : BotState) : BotState :=
  if s.ethPrice > 0 then
    let h0 := s.ethPriceHistory ++ [⟨now, s.ethPrice⟩]
    let h := if h0.length > 500 then h0.tail else h0
    let r := updateIndicators sqrtFn s.config s.ethEma s.ethIndicators h
    { s with ethPriceHistory := h, ethEma := r.1, ethIndicators := r.2 }
  else s

/-- Append a sample for LINK when `state.linkPrice > 0`. -/
def pushLinkSample (sqrtFn : ℚ → ℚ) (now : ℚ) (s : BotState) : BotState :=
  if s.linkPrice > 0 then
    let h0 := s.linkPriceHistory ++ [⟨now, s.linkPrice⟩]
    let h := if h0.length > 500 then h0.tail else h0
    let r := updateIndicators sqrtFn s.config s.linkEma s.linkIndicators h
    { s with linkPriceHistory := h, linkEma := r.1, linkIndicators := r.2 }
  else s

/-- Recompute both composite signals from the current indicator state
and histories (the tail of `fetchPrices`). -/
def refreshSignals (cfg : Config) (s : BotState) : BotState :=
  let ethSig := generateSignal cfg s.ethIndicators s.ethPriceHistory
  let linkSig := generateSignal cfg s.linkIndicators s.linkPriceHistory
  { s with sigEth := ethSig.composite, sigLink := linkSig.composite,
           sigEthDetails := ethSig.details, sigLinkDetails := linkSig.details }

/-- Source function `fetchPrices()`.  Here `read1Ok` / `read2Ok` model the two `slot0` RPC
reads; a failure throws into the surrounding catch, keeping whatever was
already mutated.  `ethSlot` / `linkSlot` are the returned
`sqrtPriceX96` values. -/
def fetchPrices (sqrtFn : ℚ → ℚ) (read1Ok read2Ok : Bool)
    (ethSlot linkSlot : ℚ) (now : ℚ) (s : BotState) : BotState × Bool :=
  if !read1Ok then (s, false)
  else
    let wethPerUsdc := decodeSqrtPrice ethSlot 6 18
    let s := { s with ethPrice := if wethPerUsdc > 0 then 1 / wethPerUsdc else 0 }
    if !read2Ok then (s, false)
    else
      let linkPerUsdc := decodeSqrtPrice linkSlot 6 18
      let s := { s with linkPrice := if linkPerUsdc > 0 then 1 / linkPerUsdc else 0 }
      let s := pushEthSample sqrtFn now s
      let s := pushLinkSample sqrtFn now s
      (refreshSignals s.config s, true)

-- ══════════════════════════════════════════
--  BALANCE ENGINE
-- ══════════════════════════════════════════

/-- Source function `updateBalances()`: on success all four balances are replaced by the
fetched values; a rejected native-balance read throws into the catch and
leaves the state untouched. -/
def updateBalances (ok : Bool) (eth weth link usdc : ℚ) (s : BotState) : BotState :=
  if ok then
    { s with ethBalance := eth, wethBalance := weth,
             linkBalance := link, usdcBalance := usdc }
  else s

/-- Source function `getPortfolioUSD()`. -/
def getPortfolioUSD (s : BotState) : ℚ :=
  (s.ethBalance + s.wethBalance) * s.ethPrice
    + s.linkBalance * s.linkPrice
    + s.usdcBalance

-- ══════════════════════════════════════════
--  RISK MANAGER
-- ══════════════════════════════════════════

/-- The drawdown ratio `(peak - portfolio)/peak` that `checkRisk`
computes once the peak has been raised to the current value. -/
def drawdownOf (portfolioUSD peak : ℚ) : ℚ := (peak - portfolioUSD) / peak

/-- Source function `checkRisk()`: evaluates the five guards, mutating the portfolio
peak, drawdown percentage and (sticky) halted flag on the way.  The
imperative mutations of the source are rendered as a chain of record
updates in source order. -/
def checkRisk (now : ℚ) (s : BotState) : BotState × RiskResult :=
  let portfolioUSD := getPortfolioUSD s
  let s1 := if portfolioUSD > s.portfolioPeakUSD
            then { s with portfolioPeakUSD := portfolioUSD } else s
  -- inside `if (peak > 0)`: record the drawdown, and on a breach set the
  -- sticky halt flag and report
  let breach := s1.portfolioPeakUSD > 0 ∧
    drawdownOf portfolioUSD s1.portfolioPeakUSD > s1.config.maxDrawdownPct
  let s2 := if s1.portfolioPeakUSD > 0
            then { s1 with currentDrawdown := drawdownOf portfolioUSD s1.portfolioPeakUSD }
            else s1
  let s3 := if breach then { s2 with drawdownHalted := true } else s2
  let issuesDD : List Issue := if breach then [Issue.maxDrawdown] else []
  let issuesCooldown : List Issue :=
    if s3.lastBlock - s3.lastTradeBlock < s3.config.cooldownBlocks then [Issue.cooldown] else []
  let recentTrades := s3.tradeHistory.filter (fun t => t.time > now - 3600000)
  let issuesRate : List Issue :=
    if (recentTrades.length : ℚ) ≥ s3.config.maxTradesPerHour then [Issue.rateLimit] else []
  let issuesGas : List Issue :=
    if s3.gasPrice > 50000000000 then [Issue.highGas] else []
  let issuesReserve : List Issue :=
    if s3.ethBalance < s3.config.gasReserveETH then [Issue.lowGasReserve] else []
  let issues := issuesDD ++ issuesCooldown ++ issuesRate ++ issuesGas ++ issuesReserve
  (s3, { ok := issues.isEmpty, issues := issues })

-- ══════════════════════════════════════════
--  EXECUTION ENGINE
-- ══════════════════════════════════════════

/-- Source function `recordTrade(type, from, to, amountIn, amountOut, tx)`. -/
def recordTrade (now : ℚ) (kind : TradeKind) (fromAsset toAsset : Token)
    (amountIn amountOut : ℚ) (s : BotState) : BotState :=
  let h0 := s.tradeHistory ++
    [{ time := now, kind := kind, fromAsset := fromAsset, toAsset := toAsset,
       amountIn := amountIn, amountOut := amountOut,
       ethPrice := s.ethPrice, linkPrice := s.linkPrice, block := s.lastBlock }]
  let h := if h0.length > 100 then h0.tail else h0
  { s with tradesExecuted := s.tradesExecuted + 1,
           lastTradeBlock := s.lastBlock,
           tradeHistory := h }

/-- Source function `wrapETH(amountETH)`: on confirmed success records a WRAP trade and
returns `true`; a failed submission is caught and returns `false` with
no state change. -/
def wrapETH (txOk : Bool) (now : ℚ) (amountETH : ℚ) (s : BotState) : BotState × Bool :=
  if txOk then (recordTrade now .wrap .ETH .WETH amountETH amountETH s, true)
  else (s, false)

/-- The `expectedOut` computation of `swapExact`. -/
def expectedOutFor (s : BotState) (tokenIn tokenOut : Token) (amountIn : ℚ) : ℚ :=
  if tokenIn = .WETH ∧ tokenOut = .USDC then amountIn * s.ethPrice
  else if tokenIn = .USDC ∧ tokenOut = .WETH then
    (if s.ethPrice > 0 then amountIn / s.ethPrice else 0)
  else if tokenIn = .LINK ∧ tokenOut = .USDC then amountIn * s.linkPrice
  else if tokenIn = .USDC ∧ tokenOut = .LINK then
    (if s.linkPrice > 0 then amountIn / s.linkPrice else 0)
  else 0

/-- Source function `swapExact(tokenIn, tokenOut, amountIn)`: a failed approval or a
failed/unconfirmed router call is caught and returns `false` with no
state change; on success a SWAP trade is recorded. -/
def swapExact (approvalOk txOk : Bool) (now : ℚ) (tokenIn tokenOut : Token)
    (amountIn : ℚ) (s : BotState) : BotState × Bool :=
  let expectedOut := expectedOutFor s tokenIn tokenOut amountIn
  if !approvalOk then (s, false)
  else if txOk then
    (recordTrade now .swap tokenIn tokenOut amountIn expectedOut s, true)
  else (s, false)

-- ══════════════════════════════════════════
--  TRADING STRATEGY
-- ══════════════════════════════════════════

/-- The current LINK allocation percentage computed by
`executeStrategy`. -/
def linkPctOf (s : BotState) : ℚ :=
  let portfolioUSD := getPortfolioUSD s
  if portfolioUSD > 0 then (s.linkBalance * s.linkPrice) / portfolioUSD else 0

/-- The current ETH allocation percentage computed by
`executeStrategy`. -/
def ethPctOf (s : BotState) : ℚ :=
  let portfolioUSD := getPortfolioUSD s
  if portfolioUSD > 0 then ((s.ethBalance + s.wethBalance) * s.ethPrice) / portfolioUSD else 0

/-- Rule block 1 of `executeStrategy`: strong BUY signal for LINK. -/
def linkBuyRule (s : BotState) : Option TradeInstruction :=
  let cfg := s.config
  if s.sigLink > cfg.minConfluence then
    let a :=
      if s.usdcBalance > 1 ∧ linkPctOf s < cfg.maxPositionPct then
        let buyAmount := s.usdcBalance * min 0.5 |s.sigLink|
        if buyAmount > 0.5 then some ⟨.swap, .USDC, .LINK, buyAmount⟩ else none
      else none
    let b :=
      if s.wethBalance > 0.001 ∧ s.usdcBalance < 1 then
        let sellAmount := s.wethBalance * min 0.5 |s.sigLink|
        if sellAmount > 0.0005 then some ⟨.swap, .WETH, .USDC, sellAmount⟩ else none
      else none
    let c :=
      if s.ethBalance > cfg.gasReserveETH + cfg.minTradeETH ∧ s.wethBalance < 0.001 then
        let wrapAmount := (s.ethBalance - cfg.gasReserveETH) * min 0.5 |s.sigLink|
        if wrapAmount > cfg.minTradeETH then some ⟨.wrap, .ETH, .WETH, wrapAmount⟩ else none
      else none
    (a.orElse fun _ => b.orElse fun _ => c)
  else none

/-- Rule block 2 of `executeStrategy`: strong SELL signal for LINK. -/
def linkSellRule (s : BotState) : Option TradeInstruction :=
  let cfg := s.config
  if s.sigLink < -cfg.minConfluence ∧ s.linkBalance > 0.01 then
    let sellAmount := s.linkBalance * min 0.5 |s.sigLink|
    if sellAmount > 0.005 ∧ s.linkPrice > 0
    then some ⟨.swap, .LINK, .USDC, sellAmount⟩ else none
  else none

/-- Rule block 3 of `executeStrategy`: strong BUY signal for ETH. -/
def ethBuyRule (s : BotState) : Option TradeInstruction :=
  let cfg := s.config
  if s.sigEth > cfg.minConfluence then
    let a :=
      if s.usdcBalance > 1 ∧ ethPctOf s < cfg.maxPositionPct then
        let buyAmount := s.usdcBalance * min 0.5 |s.sigEth|
        if buyAmount > 0.5 then some ⟨.swap, .USDC, .WETH, buyAmount⟩ else none
      else none
    let b :=
      if s.ethBalance > cfg.gasReserveETH + cfg.minTradeETH ∧ s.wethBalance < 0.001 then
        let wrapAmount := (s.ethBalance - cfg.gasReserveETH) * min 0.3 |s.sigEth|
        if wrapAmount > cfg.minTradeETH then some ⟨.wrap, .ETH, .WETH, wrapAmount⟩ else none
      else none
    (a.orElse fun _ => b)
  else none

/-- Rule block 4 of `executeStrategy`: strong SELL signal for ETH. -/
def ethSellRule (s : BotState) : Option TradeInstruction :=
  let cfg := s.config
  if s.sigEth < -cfg.minConfluence ∧ s.wethBalance > 0.001 then
    let sellAmount := s.wethBalance * min 0.5 |s.sigEth|
    if sellAmount > 0.0005 then some ⟨.swap, .WETH, .USDC, sellAmount⟩ else none
  else none

/-- Rule block 5 of `executeStrategy`: risk-off, both signals negative →
park in USDC. -/
def riskOffRule (s : BotState) : Option TradeInstruction :=
  if s.sigEth < -0.2 ∧ s.sigLink < -0.2 then
    if s.wethBalance > 0.001 then
      some ⟨.swap, .WETH, .USDC, s.wethBalance * 0.3⟩
    else if s.linkBalance > 0.01 ∧ s.linkPrice > 0 then
      some ⟨.swap, .LINK, .USDC, s.linkBalance * 0.3⟩
    else none
  else none

/-- The ordered decision cascade of `executeStrategy` (its early-return
body after the risk gate): first matching rule wins. -/
def strategyDecision (s : BotState) : Option TradeInstruction :=
  (linkBuyRule s).orElse fun _ => (linkSellRule s).orElse fun _ =>
    (ethBuyRule s).orElse fun _ => (ethSellRule s).orElse fun _ => riskOffRule s

/-- Dispatch the instruction the cascade selected (`wrapETH` or
`swapExact`). -/
def dispatchInstruction (approvalOk txOk : Bool) (now : ℚ)
    (i : TradeInstruction) (s : BotState) : BotState :=
  match i.kind with
  | .wrap => (wrapETH txOk now i.amount s).1
  | .swap => (swapExact approvalOk txOk now i.tokenIn i.tokenOut i.amount s).1

/-- Source function `executeStrategy()`: the running/halted gates, the risk gate, then
the decision cascade; returns the new state and the instruction it
attempted to execute (if any). -/
def executeStrategy (approvalOk txOk : Bool) (now : ℚ) (s : BotState) :
    BotState × Option TradeInstruction :=
  if !s.running then (s, none)
  else if s.drawdownHalted then (s, none)
  else
    let r := checkRisk now s
    if !r.2.ok then (r.1, none)
    else
      match strategyDecision r.1 with
      | none => (r.1, none)
      | some i => (dispatchInstruction approvalOk txOk now i r.1, some i)

-- ══════════════════════════════════════════
--  MAIN LOOP AND CONTROL
-- ══════════════════════════════════════════

/-- The external observations of one scheduler iteration. -/
structure TickInputs where
  block : ℤ
  gasPrice : Option ℚ
  read1Ok : Bool
  read2Ok : Bool
  ethSlot : ℚ
  linkSlot : ℚ
  balancesOk : Bool
  ethBal : ℚ
  wethBal : ℚ
  linkBal : ℚ
  usdcBal : ℚ
  now : ℚ
  approvalOk : Bool
  txOk : Bool

/-- The refresh phase of `mainLoop()` after the deduplication guard:
record the block height, update the gas price, fetch prices, refresh
balances and raise the portfolio peak. -/
def tickRefresh (sqrtFn : ℚ → ℚ) (inp : TickInputs) (s : BotState) : BotState :=
  let s := { s with lastBlock := inp.block }
  let s := match inp.gasPrice with
    | some g => { s with gasPrice := g }
    | none => s
  let s := (fetchPrices sqrtFn inp.read1Ok inp.read2Ok inp.ethSlot inp.linkSlot inp.now s).1
  let s := updateBalances inp.balancesOk inp.ethBal inp.wethBal inp.linkBal inp.usdcBal s
  let p := getPortfolioUSD s
  if p > s.portfolioPeakUSD then { s with portfolioPeakUSD := p } else s

/-- Source function `mainLoop()`: one scheduler iteration; returns the new state and
the trade instruction attempted during the tick (if any). -/
def mainLoop (sqrtFn : ℚ → ℚ) (inp : TickInputs) (s : BotState) :
    BotState × Option TradeInstruction :=
  if inp.block ≤ s.lastBlock then (s, none)
  else
    let s := tickRefresh sqrtFn inp s
    if s.running ∧ s.ethPriceHistory.length ≥ s.config.smaSlow then
      executeStrategy inp.approvalOk inp.txOk inp.now s
    else (s, none)

/-- The three `/api/control` actions. -/
inductive ControlAction where
  | start
  | stop
  | resetDrawdown
  deriving DecidableEq, Repr

/-- The control endpoint `app.post('/api/control')`. -/
def applyControl (action : ControlAction) (s : BotState) : BotState :=
  match action with
  | .start => { s with running := true, drawdownHalted := false }
  | .stop => { s with running := false }
  | .resetDrawdown =>
      { s with drawdownHalted := false, portfolioPeakUSD := getPortfolioUSD s }

/-- Iterated EMA update with a constant input price `P`. -/
def emaIter (P : ℚ) (period : ℕ) (e0 : ℚ) : ℕ → ℚ
  | 0 => e0
  | n + 1 => calcEMA P (some (emaIter P period e0 n)) period

-- ══════════════════════════════════════════
--  CONCRETE STATES FOR WITNESSES
-- ══════════════════════════════════════════

/-- A fully concrete bot state used to exercise the development on
specific inputs: running, well funded with gas, no trades yet. -/
def baseState : BotState :=
  { running := true,
    ethBalance := 0.02, wethBalance := 0.002, linkBalance := 0, usdcBalance := 0,
    ethPrice := 1000, linkPrice := 1,
    ethPriceHistory := [], linkPriceHistory := [],
    ethIndicators := Indicators.init, linkIndicators := Indicators.init,
    ethEma := EmaState.init, linkEma := EmaState.init,
    sigEth := -0.5, sigLink := 0,
    sigEthDetails := ⟨0, 0, 0, 0, 0⟩, sigLinkDetails := ⟨0, 0, 0, 0, 0⟩,
    lastBlock := 100, lastTradeBlock := 0,
    tradesExecuted := 0, tradeHistory := [],
    portfolioPeakUSD := 0, currentDrawdown := 0,
    drawdownHalted := false, gasPrice := 0,
    config := Config.default }

/-- Tick observations for a stalled chain: same block height as
`baseState.lastBlock`. -/
def stallTick : TickInputs :=
  { block := 100, gasPrice := none, read1Ok := true, read2Ok := true,
    ethSlot := 0, linkSlot := 0, balancesOk := true,
    ethBal := 0, wethBal := 0, linkBal := 0, usdcBal := 0, now := 0,
    approvalOk := true, txOk := true }

-- ══════════════════════════════════════════
--  C4: NEUTRAL SIGNAL ON SHORT HISTORY
-- ══════════════════════════════════════════

/-- C4: for every price history shorter than the slow-SMA period, the
signal generator returns the neutral signal: composite exactly 0 and
every named sub-signal component (sma, rsi, macd, bb, trend) exactly 0. -/
theorem generateSignal_neutral_on_short_history (cfg : Config) (ind : Indicators)
    (prices : List PriceSample) (h : prices.length < cfg.smaSlow) :
    generateSignal cfg ind prices =
      { composite := 0,
        details := { sma := 0, rsi := 0, macd := 0, bb := 0, trend := 0 } } := by
  unfold generateSignal
  rw [if_pos h]

/-- Witness for C4 at the empty history and the default config. -/
theorem generateSignal_neutral_on_short_history_witness :
    ([] : List PriceSample).length < Config.default.smaSlow ∧
    generateSignal Config.default Indicators.init [] =
      { composite := 0,
        details := { sma := 0, rsi := 0, macd := 0, bb := 0, trend := 0 } } :=
  ⟨by decide,
   generateSignal_neutral_on_short_history Config.default Indicators.init [] (by decide)⟩

-- ══════════════════════════════════════════
--  C8: TICK DEDUPLICATION
-- ══════════════════════════════════════════

/-- C8: a scheduler iteration observing a block height less than or
equal to the last processed height is a no-op: the whole state
(price history, indicator state, signals, balances, trade history,
last-processed height) is unchanged and no decision is evaluated. -/
theorem mainLoop_dedup (sqrtFn : ℚ → ℚ) (inp : TickInputs) (s : BotState)
    (h : inp.block ≤ s.lastBlock) :
    mainLoop sqrtFn inp s = (s, none) := by
  unfold mainLoop
  rw [if_pos h]

/-- Witness for C8: a tick at the already-processed height 100. -/
theorem mainLoop_dedup_witness :
    stallTick.block ≤ baseState.lastBlock ∧
    mainLoop id stallTick baseState = (baseState, none) :=
  ⟨by decide, mainLoop_dedup id stallTick baseState (by decide)⟩

-- ══════════════════════════════════════════
--  C9: EXECUTION-FAILURE ATOMICITY
-- ══════════════════════════════════════════

/-- C9: a swap or wrap attempt whose on-chain execution fails leaves the
state completely unchanged — in particular no TradeRecord is appended,
the trades-executed counter is not incremented and the last-trade tick
is not advanced — and the operation returns the failure result `false`
instead of raising. -/
theorem execution_failure_is_atomic :
    (∀ (approvalOk : Bool) (now : ℚ) (tokenIn tokenOut : Token) (amountIn : ℚ)
        (s : BotState),
      swapExact approvalOk false now tokenIn tokenOut amountIn s = (s, false)) ∧
    (∀ (now amountETH : ℚ) (s : BotState),
      wrapETH false now amountETH s = (s, false)) := by
  constructor
  · intro approvalOk now tokenIn tokenOut amountIn s
    unfold swapExact
    cases approvalOk <;> simp
  · intro now amountETH s
    rfl

-- ══════════════════════════════════════════
--  C5: BOUNDS INVARIANTS
-- ══════════════════════════════════════════

theorem gainsLosses_nonneg : ∀ l : List ℚ, 0 ≤ (gainsLosses l).1 ∧ 0 ≤ (gainsLosses l).2
  | [] => by simp [gainsLosses]
  | [a] => by simp [gainsLosses]
  | a :: b :: rest => by
      have ih := gainsLosses_nonneg (b :: rest)
      simp only [gainsLosses]
      split_ifs with h
      · exact ⟨by dsimp only; linarith [ih.1], by dsimp only; exact ih.2⟩
      · exact ⟨by dsimp only; linarith [ih.1],
               by dsimp only; have := abs_nonneg (b - a); linarith [ih.2]⟩

/-- The value `RSI = 100 - 100/(1+RS)` lies in `[0, 100]` for `RS ≥ 0`. -/
theorem rsiFormula_bounds (rs : ℚ) (h : 0 ≤ rs) :
    0 ≤ 100 - 100 / (1 + rs) ∧ 100 - 100 / (1 + rs) ≤ 100 := by
  have h1 : (0 : ℚ) < 1 + rs := by linarith
  have h2 : 100 / (1 + rs) ≤ 100 := div_le_self (by norm_num) (by linarith)
  have h3 : 0 ≤ 100 / (1 + rs) := by positivity
  exact ⟨by linarith, by linarith⟩

/-- The `RS` ratio (with the `avgLoss = 0 ⇒ 100` sentinel) is nonnegative when
both averages are. -/
theorem rsSentinel_nonneg (avgGain avgLoss : ℚ) (hg : 0 ≤ avgGain) (hl : 0 ≤ avgLoss) :
    0 ≤ if avgLoss = 0 then (100 : ℚ) else avgGain / avgLoss := by
  split_ifs
  · norm_num
  · exact div_nonneg hg hl

theorem calcRSI_bounds (prices : List PriceSample) (period : ℕ)
    (g l : Option ℚ) (hp : 0 < period)
    (hg : ∀ x, g = some x → 0 ≤ x) (hl : ∀ x, l = some x → 0 ≤ x) :
    0 ≤ (calcRSI prices period g l).rsi ∧ (calcRSI prices period g l).rsi ≤ 100 := by
  have hpq : (0 : ℚ) < (period : ℚ) := by exact_mod_cast hp
  have hper1 : (0 : ℚ) ≤ (period : ℚ) - 1 := by
    have h1 : (1 : ℚ) ≤ (period : ℚ) := by exact_mod_cast hp
    linarith
  unfold calcRSI
  split
  · norm_num
  · cases g with
    | none =>
        have hglnn := gainsLosses_nonneg
          ((prices.drop (prices.length - (period + 1))).map (·.price))
        exact rsiFormula_bounds _ (rsSentinel_nonneg _ _
          (div_nonneg hglnn.1 hpq.le) (div_nonneg hglnn.2 hpq.le))
    | some pg =>
        have hpg : 0 ≤ pg := hg pg rfl
        have hpl : 0 ≤ l.getD 0 := by
          cases l with
          | none => simp
          | some x => simpa using hl x rfl
        dsimp only
        apply rsiFormula_bounds
        apply rsSentinel_nonneg
        · apply div_nonneg _ hpq.le
          split_ifs with h
          · nlinarith [mul_nonneg hpg hper1]
          · simpa using mul_nonneg hpg hper1
        · apply div_nonneg _ hpq.le
          split_ifs with h
          · have := abs_nonneg
              (((prices.drop (prices.length - 1)).headD ⟨0, 0⟩).price -
               ((prices.drop (prices.length - 2)).headD ⟨0, 0⟩).price)
            nlinarith [mul_nonneg hpl hper1]
          · simpa using mul_nonneg hpl hper1

theorem calcBollingerBands_pctB_bounds (sqrtFn : ℚ → ℚ)
    (prices : List PriceSample) (period : ℕ) (mult : ℚ) (bb : BollingerBands)
    (h : calcBollingerBands sqrtFn prices period mult = some bb) :
    (0 ≤ bb.pctB ∧ bb.pctB ≤ 1) ∧
    (sqrtFn (bbVariance prices period) = 0 → bb.pctB = 1/2) := by
  unfold calcBollingerBands at h
  split at h
  · simp at h
  · rw [Option.some.injEq] at h
    subst h
    constructor
    · exact ⟨le_max_left _ _, max_le (by norm_num) (min_le_left _ _)⟩
    · intro h0
      dsimp only
      rw [if_pos h0]
      norm_num

theorem clamp1_bounds (x : ℚ) : -1 ≤ clamp1 x ∧ clamp1 x ≤ 1 :=
  ⟨le_max_left _ _, max_le (by norm_num) (min_le_left _ _)⟩

theorem generateSignal_composite_bounds (cfg : Config) (ind : Indicators)
    (prices : List PriceSample) :
    -1 ≤ (generateSignal cfg ind prices).composite ∧
    (generateSignal cfg ind prices).composite ≤ 1 := by
  unfold generateSignal
  split
  · norm_num
  · exact clamp1_bounds _

/-- C5: bounds invariants — the RSI computation always returns a value
in `[0,100]` for any price history, positive period and non-negative
accumulator state; Bollinger %B is always in `[0,1]` after clamping and
is exactly `0.5` when the standard deviation is `0`; and the composite
signal returned by the signal generator is always in `[-1,1]`. -/
theorem indicator_and_signal_bounds :
    (∀ (prices : List PriceSample) (period : ℕ) (g l : Option ℚ), 0 < period →
      (∀ x, g = some x → 0 ≤ x) → (∀ x, l = some x → 0 ≤ x) →
      0 ≤ (calcRSI prices period g l).rsi ∧ (calcRSI prices period g l).rsi ≤ 100) ∧
    (∀ (sqrtFn : ℚ → ℚ) (prices : List PriceSample) (period : ℕ) (mult : ℚ)
        (bb : BollingerBands), calcBollingerBands sqrtFn prices period mult = some bb →
      (0 ≤ bb.pctB ∧ bb.pctB ≤ 1) ∧
      (sqrtFn (bbVariance prices period) = 0 → bb.pctB = 1/2)) ∧
    (∀ (cfg : Config) (ind : Indicators) (prices : List PriceSample),
      -1 ≤ (generateSignal cfg ind prices).composite ∧
      (generateSignal cfg ind prices).composite ≤ 1) :=
  ⟨fun prices period g l hp hg hl => calcRSI_bounds prices period g l hp hg hl,
   fun sqrtFn prices period mult bb h =>
     calcBollingerBands_pctB_bounds sqrtFn prices period mult bb h,
   fun cfg ind prices => generateSignal_composite_bounds cfg ind prices⟩

/-- A one-sample history whose Bollinger window has zero deviation. -/
def flatSample : PriceSample := ⟨0, 5⟩

/-- Witness for C5 at concrete inputs: the RSI of an empty history with
period 14, the Bollinger bands of a flat one-sample window, and the
composite of the warm-up signal. -/
theorem indicator_and_signal_bounds_witness :
    (0 ≤ (calcRSI [] 14 none none).rsi ∧ (calcRSI [] 14 none none).rsi ≤ 100) ∧
    ((0 ≤ (⟨5, 5, 5, 1/2⟩ : BollingerBands).pctB ∧
      (⟨5, 5, 5, 1/2⟩ : BollingerBands).pctB ≤ 1) ∧
     ((fun _ => (0 : ℚ)) (bbVariance [flatSample] 1) = 0 →
      (⟨5, 5, 5, 1/2⟩ : BollingerBands).pctB = 1/2)) ∧
    (-1 ≤ (generateSignal Config.default Indicators.init []).composite ∧
     (generateSignal Config.default Indicators.init []).composite ≤ 1) :=
  ⟨indicator_and_signal_bounds.1 [] 14 none none (by norm_num)
     (fun x hx => by cases hx) (fun x hx => by cases hx),
   indicator_and_signal_bounds.2.1 (fun _ => 0) [flatSample] 1 2 ⟨5, 5, 5, 1/2⟩
     (by norm_num [calcBollingerBands, bbValues, bbMean, bbVariance, flatSample,
                   min_def, max_def]),
   indicator_and_signal_bounds.2.2 Config.default Indicators.init []⟩

-- ══════════════════════════════════════════
--  C6: EMA RECURRENCE AND CONTRACTION
-- ══════════════════════════════════════════

theorem emaK_bounds (period : ℕ) (h : 1 ≤ period) :
    0 < 2 / ((period : ℚ) + 1) ∧ 2 / ((period : ℚ) + 1) ≤ 1 := by
  have h1 : (1 : ℚ) ≤ (period : ℚ) := by exact_mod_cast h
  constructor
  · positivity
  · rw [div_le_one (by positivity)]
    linarith

theorem calcEMA_dist (P e : ℚ) (period : ℕ) (h : 1 ≤ period) :
    |calcEMA P (some e) period - P| = (1 - 2 / ((period : ℚ) + 1)) * |e - P| := by
  have hk := emaK_bounds period h
  have heq : calcEMA P (some e) period - P = (1 - 2 / ((period : ℚ) + 1)) * (e - P) := by
    simp only [calcEMA]
    ring
  rw [heq, abs_mul, abs_of_nonneg (by linarith [hk.2])]

theorem emaIter_dist (P e0 : ℚ) (period : ℕ) (h : 1 ≤ period) :
    ∀ n, |emaIter P period e0 n - P| = (1 - 2 / ((period : ℚ) + 1)) ^ n * |e0 - P|
  | 0 => by simp [emaIter]
  | n + 1 => by
      simp only [emaIter]
      rw [calcEMA_dist P _ period h, emaIter_dist P e0 period h n]
      ring

theorem emaIter_converges (P e0 : ℚ) (period : ℕ) (h : 1 ≤ period)
    (ε : ℚ) (hε : 0 < ε) : ∃ N, ∀ n, N ≤ n → |emaIter P period e0 n - P| < ε := by
  have hk := emaK_bounds period h
  set r : ℚ := 1 - 2 / ((period : ℚ) + 1) with hr
  have hr0 : 0 ≤ r := by rw [hr]; linarith [hk.2]
  have hr1 : r < 1 := by rw [hr]; linarith [hk.1]
  by_cases h0 : e0 = P
  · refine ⟨0, fun n _ => ?_⟩
    rw [emaIter_dist P e0 period h n, h0, sub_self, abs_zero, mul_zero]
    exact hε
  · have hC : 0 < |e0 - P| := abs_pos.mpr (sub_ne_zero.mpr h0)
    obtain ⟨N, hN⟩ := exists_pow_lt_of_lt_one (div_pos hε hC) hr1
    refine ⟨N, fun n hn => ?_⟩
    rw [emaIter_dist P e0 period h n]
    have h1 : r ^ n ≤ r ^ N := pow_le_pow_of_le_one hr0 hr1.le hn
    calc r ^ n * |e0 - P| ≤ r ^ N * |e0 - P| := mul_le_mul_of_nonneg_right h1 hC.le
      _ < ε / |e0 - P| * |e0 - P| := mul_lt_mul_of_pos_right hN hC
      _ = ε := by field_simp

/-- C6: the EMA update satisfies the recurrence
`ema = price*k + prevEma*(1-k)` with `k = 2/(period+1)` and seeds with
the raw price when no previous EMA exists; for a constant input price
`P` each update shrinks the distance to `P` exactly by the factor
`(1-k)` (strictly, when the distance is nonzero), so repeated
application from any starting EMA converges to `P`. -/
theorem calcEMA_recurrence_and_contraction :
    (∀ (price : ℚ) (period : ℕ), calcEMA price none period = price) ∧
    (∀ (price prevEma : ℚ) (period : ℕ),
      calcEMA price (some prevEma) period =
        price * (2 / ((period : ℚ) + 1)) + prevEma * (1 - 2 / ((period : ℚ) + 1))) ∧
    (∀ (P e : ℚ) (period : ℕ), 1 ≤ period →
      |calcEMA P (some e) period - P| = (1 - 2 / ((period : ℚ) + 1)) * |e - P| ∧
      (e ≠ P → |calcEMA P (some e) period - P| < |e - P|)) ∧
    (∀ (P e0 : ℚ) (period : ℕ), 1 ≤ period → ∀ ε : ℚ, 0 < ε →
      ∃ N, ∀ n, N ≤ n → |emaIter P period e0 n - P| < ε) := by
  refine ⟨fun price period => rfl, fun price prevEma period => rfl,
          fun P e period h => ⟨calcEMA_dist P e period h, fun hne => ?_⟩,
          emaIter_converges⟩
  rw [calcEMA_dist P e period h]
  have hk := emaK_bounds period h
  exact mul_lt_of_lt_one_left (abs_pos.mpr (sub_ne_zero.mpr hne)) (by linarith [hk.1])

/-- Witness for C6 at price 7, previous EMA 3, period 12, and the
contraction/convergence parts at `P = 0`, starting EMA 1. -/
theorem calcEMA_recurrence_and_contraction_witness :
    calcEMA 7 none 12 = 7 ∧
    calcEMA 7 (some 3) 12 = 7 * (2 / (((12 : ℕ) : ℚ) + 1)) + 3 * (1 - 2 / (((12 : ℕ) : ℚ) + 1)) ∧
    |calcEMA 0 (some 1) 12 - 0| = (1 - 2 / (((12 : ℕ) : ℚ) + 1)) * |1 - 0| ∧
    |calcEMA 0 (some 1) 12 - 0| < |(1 : ℚ) - 0| ∧
    ∃ N, ∀ n, N ≤ n → |emaIter 0 12 1 n - 0| < 1 :=
  ⟨calcEMA_recurrence_and_contraction.1 7 12,
   calcEMA_recurrence_and_contraction.2.1 7 3 12,
   (calcEMA_recurrence_and_contraction.2.2.1 0 1 12 (by norm_num)).1,
   (calcEMA_recurrence_and_contraction.2.2.1 0 1 12 (by norm_num)).2 (by norm_num),
   calcEMA_recurrence_and_contraction.2.2.2 0 1 12 (by norm_num) 1 (by norm_num)⟩

-- ══════════════════════════════════════════
--  C7: COOLDOWN GUARD EXACTNESS
-- ══════════════════════════════════════════

/-- The cooldown issue is reported exactly when fewer than
`cooldownBlocks` blocks have elapsed since the last trade. -/
theorem checkRisk_cooldown_iff (now : ℚ) (s : BotState) :
    Issue.cooldown ∈ (checkRisk now s).2.issues ↔
      s.lastBlock - s.lastTradeBlock < s.config.cooldownBlocks := by
  unfold checkRisk
  dsimp only
  split_ifs <;> simp_all

/-- C7: after a trade is recorded at tick `T` (with cooldown length `c`),
the risk check at any tick `t` with `T < t < T + c` reports a cooldown
issue, and the risk check at tick `T + c` does not. -/
theorem cooldown_guard_exact (s : BotState) (c T t : ℤ) (nowRec now : ℚ)
    (kind : TradeKind) (fromAsset toAsset : Token) (amountIn amountOut : ℚ) :
    (T < t → t < T + c →
      Issue.cooldown ∈ (checkRisk now
        { recordTrade nowRec kind fromAsset toAsset amountIn amountOut
            { s with lastBlock := T,
                     config := { s.config with cooldownBlocks := c } } with
          lastBlock := t }).2.issues) ∧
    (t = T + c →
      Issue.cooldown ∉ (checkRisk now
        { recordTrade nowRec kind fromAsset toAsset amountIn amountOut
            { s with lastBlock := T,
                     config := { s.config with cooldownBlocks := c } } with
          lastBlock := t }).2.issues) := by
  constructor
  · intro hTt htc
    rw [checkRisk_cooldown_iff]
    simp only [recordTrade]
    omega
  · intro ht
    rw [checkRisk_cooldown_iff]
    simp only [recordTrade]
    omega

/-- The state probed by the C7 witness: a trade recorded at block 50
with cooldown 10, observed again at block `t`. -/
def cooldownProbe (t : ℤ) : BotState :=
  { recordTrade 0 .wrap .ETH .WETH 1 1
      { baseState with lastBlock := 50,
                       config := { baseState.config with cooldownBlocks := 10 } } with
    lastBlock := t }

/-- Witness for C7: tick 55 (inside the window) reports the cooldown,
tick 60 (= 50 + 10) does not. -/
theorem cooldown_guard_exact_witness :
    Issue.cooldown ∈ (checkRisk 0 (cooldownProbe 55)).2.issues ∧
    Issue.cooldown ∉ (checkRisk 0 (cooldownProbe 60)).2.issues :=
  ⟨(cooldown_guard_exact baseState 10 50 55 0 0 .wrap .ETH .WETH 1 1).1
     (by norm_num) (by norm_num),
   (cooldown_guard_exact baseState 10 50 60 0 0 .wrap .ETH .WETH 1 1).2
     (by norm_num)⟩

-- ══════════════════════════════════════════
--  C1: STICKY DRAWDOWN HALT
-- ══════════════════════════════════════════

theorem pushEthSample_halted (sqrtFn : ℚ → ℚ) (now : ℚ) (s : BotState) :
    (pushEthSample sqrtFn now s).drawdownHalted = s.drawdownHalted := by
  unfold pushEthSample
  split <;> rfl

theorem pushLinkSample_halted (sqrtFn : ℚ → ℚ) (now : ℚ) (s : BotState) :
    (pushLinkSample sqrtFn now s).drawdownHalted = s.drawdownHalted := by
  unfold pushLinkSample
  split <;> rfl

theorem refreshSignals_halted (cfg : Config) (s : BotState) :
    (refreshSignals cfg s).drawdownHalted = s.drawdownHalted := rfl

theorem fetchPrices_halted (sqrtFn : ℚ → ℚ) (r1 r2 : Bool)
    (ethSlot linkSlot now : ℚ) (s : BotState) :
    ((fetchPrices sqrtFn r1 r2 ethSlot linkSlot now s).1).drawdownHalted =
      s.drawdownHalted := by
  unfold fetchPrices
  cases r1 <;> cases r2 <;>
    simp [refreshSignals_halted, pushEthSample_halted, pushLinkSample_halted]

theorem updateBalances_halted (ok : Bool) (eth weth link usdc : ℚ) (s : BotState) :
    (updateBalances ok eth weth link usdc s).drawdownHalted = s.drawdownHalted := by
  unfold updateBalances
  split <;> rfl

theorem checkRisk_halted_mono (now : ℚ) (s : BotState) (h : s.drawdownHalted = true) :
    ((checkRisk now s).1).drawdownHalted = true := by
  unfold checkRisk
  dsimp only
  split_ifs <;> simp_all

theorem recordTrade_halted (now : ℚ) (kind : TradeKind) (a b : Token)
    (amtIn amtOut : ℚ) (s : BotState) :
    (recordTrade now kind a b amtIn amtOut s).drawdownHalted = s.drawdownHalted := rfl

theorem wrapETH_halted (txOk : Bool) (now amt : ℚ) (s : BotState) :
    ((wrapETH txOk now amt s).1).drawdownHalted = s.drawdownHalted := by
  unfold wrapETH
  split <;> rfl

theorem swapExact_halted (approvalOk txOk : Bool) (now : ℚ) (tIn tOut : Token)
    (amt : ℚ) (s : BotState) :
    ((swapExact approvalOk txOk now tIn tOut amt s).1).drawdownHalted =
      s.drawdownHalted := by
  unfold swapExact
  split_ifs <;> rfl

theorem dispatchInstruction_halted (approvalOk txOk : Bool) (now : ℚ)
    (i : TradeInstruction) (s : BotState) :
    (dispatchInstruction approvalOk txOk now i s).drawdownHalted =
      s.drawdownHalted := by
  obtain ⟨k, tIn, tOut, amt⟩ := i
  cases k <;> simp [dispatchInstruction, wrapETH_halted, swapExact_halted]

theorem executeStrategy_halted_noop (approvalOk txOk : Bool) (now : ℚ) (s : BotState)
    (h : s.drawdownHalted = true) :
    executeStrategy approvalOk txOk now s = (s, none) := by
  unfold executeStrategy
  cases hr : s.running <;> simp [h]

theorem executeStrategy_halted_mono (approvalOk txOk : Bool) (now : ℚ) (s : BotState)
    (h : s.drawdownHalted = true) :
    ((executeStrategy approvalOk txOk now s).1).drawdownHalted = true := by
  rw [executeStrategy_halted_noop approvalOk txOk now s h]
  exact h

theorem tickRefresh_halted (sqrtFn : ℚ → ℚ) (inp : TickInputs) (s : BotState) :
    (tickRefresh sqrtFn inp s).drawdownHalted = s.drawdownHalted := by
  unfold tickRefresh
  cases hg : inp.gasPrice <;>
    dsimp only <;>
    split <;>
    simp [updateBalances_halted, fetchPrices_halted]

theorem mainLoop_halted (sqrtFn : ℚ → ℚ) (inp : TickInputs) (s : BotState)
    (h : s.drawdownHalted = true) :
    ((mainLoop sqrtFn inp s).1).drawdownHalted = true := by
  unfold mainLoop
  split
  · exact h
  · dsimp only
    split
    · exact executeStrategy_halted_mono _ _ _ _ (by rw [tickRefresh_halted]; exact h)
    · dsimp only
      rw [tickRefresh_halted]
      exact h

/-- C1 (amended): no step of the tick loop (price/balance refresh, risk
check, decision, execution) ever clears the sticky halted flag, and the
explicit reset action clears it while re-anchoring the portfolio peak to
the current portfolio value; however, the explicit start action also
clears the halted flag, and it leaves the portfolio peak unchanged
rather than re-anchoring it. -/
theorem drawdown_halt_sticky :
    (∀ (sqrtFn : ℚ → ℚ) (inp : TickInputs) (s : BotState),
      s.drawdownHalted = true → ((mainLoop sqrtFn inp s).1).drawdownHalted = true) ∧
    (∀ s : BotState,
      (applyControl .resetDrawdown s).drawdownHalted = false ∧
      (applyControl .resetDrawdown s).portfolioPeakUSD = getPortfolioUSD s) ∧
    (∀ s : BotState,
      (applyControl .start s).drawdownHalted = false ∧
      (applyControl .start s).portfolioPeakUSD = s.portfolioPeakUSD) :=
  ⟨mainLoop_halted, fun _ => ⟨rfl, rfl⟩, fun _ => ⟨rfl, rfl⟩⟩

/-- A halted state whose recorded peak (100) differs from its current
portfolio value (50). -/
def haltedState : BotState :=
  { baseState with drawdownHalted := true, portfolioPeakUSD := 100,
                   ethBalance := 0, wethBalance := 0, linkBalance := 0,
                   usdcBalance := 50, ethPrice := 0, linkPrice := 0 }

/-- Witness for C1: a full tick on a halted state keeps the flag set,
and the reset action re-anchors the peak. -/
theorem drawdown_halt_sticky_witness :
    ((mainLoop id stallTick haltedState).1).drawdownHalted = true ∧
    (applyControl .resetDrawdown baseState).portfolioPeakUSD =
      getPortfolioUSD baseState :=
  ⟨drawdown_halt_sticky.1 id stallTick haltedState rfl,
   (drawdown_halt_sticky.2.1 baseState).2⟩

/-- Counterexample for C1 as stated: the start action clears the halted
flag but does not re-anchor the peak to the current portfolio value, so
the reset action is not the only way out of the halted state. -/
theorem drawdown_halt_start_clears_without_reanchor :
    haltedState.drawdownHalted = true ∧
    (applyControl .start haltedState).drawdownHalted = false ∧
    (applyControl .start haltedState).portfolioPeakUSD ≠
      getPortfolioUSD (applyControl .start haltedState) := by
  refine ⟨rfl, rfl, ?_⟩
  norm_num [applyControl, getPortfolioUSD, haltedState, baseState]

-- ══════════════════════════════════════════
--  C2: AT MOST ONE INSTRUCTION, SIZE FLOORS
-- ══════════════════════════════════════════

theorem checkRisk_tradesExecuted (now : ℚ) (s : BotState) :
    ((checkRisk now s).1).tradesExecuted = s.tradesExecuted := by
  unfold checkRisk
  dsimp only
  split_ifs <;> rfl

theorem checkRisk_config (now : ℚ) (s : BotState) :
    ((checkRisk now s).1).config = s.config := by
  unfold checkRisk
  dsimp only
  split_ifs <;> rfl

theorem wrapETH_tradesExecuted_le (txOk : Bool) (now amt : ℚ) (s : BotState) :
    ((wrapETH txOk now amt s).1).tradesExecuted ≤ s.tradesExecuted + 1 := by
  unfold wrapETH
  split
  · simp [recordTrade]
  · exact Nat.le_succ _

theorem swapExact_tradesExecuted_le (approvalOk txOk : Bool) (now : ℚ)
    (tIn tOut : Token) (amt : ℚ) (s : BotState) :
    ((swapExact approvalOk txOk now tIn tOut amt s).1).tradesExecuted ≤
      s.tradesExecuted + 1 := by
  unfold swapExact
  split_ifs <;> simp [recordTrade]

theorem dispatchInstruction_tradesExecuted_le (approvalOk txOk : Bool) (now : ℚ)
    (i : TradeInstruction) (s : BotState) :
    (dispatchInstruction approvalOk txOk now i s).tradesExecuted ≤
      s.tradesExecuted + 1 := by
  obtain ⟨k, tIn, tOut, amt⟩ := i
  cases k
  · exact wrapETH_tradesExecuted_le _ _ _ _
  · exact swapExact_tradesExecuted_le _ _ _ _ _ _ _

theorem executeStrategy_tradesExecuted_le (approvalOk txOk : Bool) (now : ℚ)
    (s : BotState) :
    ((executeStrategy approvalOk txOk now s).1).tradesExecuted ≤
      s.tradesExecuted + 1 := by
  unfold executeStrategy
  split
  · exact Nat.le_succ _
  · split
    · exact Nat.le_succ _
    · dsimp only
      split
      · rw [checkRisk_tradesExecuted]
        exact Nat.le_succ _
      · cases hd : strategyDecision ((checkRisk now s).1) with
        | none =>
            dsimp only
            rw [checkRisk_tradesExecuted]
            exact Nat.le_succ _
        | some i =>
            dsimp only
            calc (dispatchInstruction approvalOk txOk now i ((checkRisk now s).1)).tradesExecuted
                ≤ ((checkRisk now s).1).tradesExecuted + 1 :=
                  dispatchInstruction_tradesExecuted_le _ _ _ _ _
              _ = s.tradesExecuted + 1 := by rw [checkRisk_tradesExecuted]

/-- The per-rule size floors the cascade actually enforces: wraps must
exceed `config.minTradeETH`; swaps funded by USDC must exceed 0.5,
swaps selling WETH must exceed 0.0003, and swaps selling LINK must
exceed 0.003. -/
def FloorOK (cfg : Config) (i : TradeInstruction) : Prop :=
  (i.kind = .wrap → i.amount > cfg.minTradeETH) ∧
  (i.kind = .swap →
    (i.tokenIn = .USDC → i.amount > 0.5) ∧
    (i.tokenIn = .WETH → i.amount > 0.0003) ∧
    (i.tokenIn = .LINK → i.amount > 0.003))

theorem FloorOK_wrap (cfg : Config) (tIn tOut : Token) (amt : ℚ)
    (h : amt > cfg.minTradeETH) : FloorOK cfg ⟨.wrap, tIn, tOut, amt⟩ :=
  ⟨fun _ => h, fun hk => by simp at hk⟩

theorem FloorOK_swap (cfg : Config) (tIn tOut : Token) (amt : ℚ)
    (h : (tIn = .USDC → amt > 0.5) ∧ (tIn = .WETH → amt > 0.0003) ∧
         (tIn = .LINK → amt > 0.003)) :
    FloorOK cfg ⟨.swap, tIn, tOut, amt⟩ :=
  ⟨fun hk => by simp at hk, fun _ => h⟩

theorem linkBuyRule_floor (s : BotState) (i : TradeInstruction)
    (h : linkBuyRule s = some i) : FloorOK s.config i := by
  unfold linkBuyRule at h
  dsimp only at h
  split_ifs at h
  all_goals simp only [Option.orElse] at h
  all_goals
    first
    | (rw [Option.some.injEq] at h
       subst h
       first
       | exact FloorOK_wrap _ _ _ _ (by linarith)
       | exact FloorOK_swap _ _ _ _
           ⟨fun ht => by first | linarith | simp at ht,
            fun ht => by first | linarith | simp at ht,
            fun ht => by first | linarith | simp at ht⟩)
    | exact absurd h (by simp)

theorem linkSellRule_floor (s : BotState) (i : TradeInstruction)
    (h : linkSellRule s = some i) : FloorOK s.config i := by
  unfold linkSellRule at h
  dsimp only at h
  split_ifs at h
  all_goals
    first
    | (rw [Option.some.injEq] at h
       subst h
       exact FloorOK_swap _ _ _ _
         ⟨fun ht => by first | linarith | simp at ht,
          fun ht => by first | linarith | simp at ht,
          fun ht => by first | linarith | simp at ht⟩)
    | exact absurd h (by simp)

theorem ethBuyRule_floor (s : BotState) (i : TradeInstruction)
    (h : ethBuyRule s = some i) : FloorOK s.config i := by
  unfold ethBuyRule at h
  dsimp only at h
  split_ifs at h
  all_goals simp only [Option.orElse] at h
  all_goals
    first
    | (rw [Option.some.injEq] at h
       subst h
       first
       | exact FloorOK_wrap _ _ _ _ (by linarith)
       | exact FloorOK_swap _ _ _ _
           ⟨fun ht => by first | linarith | simp at ht,
            fun ht => by first | linarith | simp at ht,
            fun ht => by first | linarith | simp at ht⟩)
    | exact absurd h (by simp)

theorem ethSellRule_floor (s : BotState) (i : TradeInstruction)
    (h : ethSellRule s = some i) : FloorOK s.config i := by
  unfold ethSellRule at h
  dsimp only at h
  split_ifs at h
  all_goals
    first
    | (rw [Option.some.injEq] at h
       subst h
       exact FloorOK_swap _ _ _ _
         ⟨fun ht => by first | linarith | simp at ht,
          fun ht => by first | linarith | simp at ht,
          fun ht => by first | linarith | simp at ht⟩)
    | exact absurd h (by simp)

theorem riskOffRule_floor (s : BotState) (i : TradeInstruction)
    (h : riskOffRule s = some i) : FloorOK s.config i := by
  unfold riskOffRule at h
  split_ifs at h
  all_goals
    first
    | (rw [Option.some.injEq] at h
       subst h
       exact FloorOK_swap _ _ _ _
         ⟨fun ht => by first | linarith | simp at ht,
          fun ht => by first | linarith | simp at ht,
          fun ht => by first | linarith | simp at ht⟩)
    | exact absurd h (by simp)

theorem orElse_cases {α : Type} (a : Option α) (b : Unit → Option α) (x : α)
    (h : a.orElse b = some x) : a = some x ∨ (a = none ∧ b () = some x) := by
  cases a
  · right
    exact ⟨rfl, by simpa [Option.orElse] using h⟩
  · left
    simpa [Option.orElse] using h

theorem strategyDecision_floor (s : BotState) (i : TradeInstruction)
    (h : strategyDecision s = some i) : FloorOK s.config i := by
  unfold strategyDecision at h
  rcases orElse_cases _ _ _ h with h1 | ⟨_, h⟩
  · exact linkBuyRule_floor s i h1
  rcases orElse_cases _ _ _ h with h1 | ⟨_, h⟩
  · exact linkSellRule_floor s i h1
  rcases orElse_cases _ _ _ h with h1 | ⟨_, h⟩
  · exact ethBuyRule_floor s i h1
  rcases orElse_cases _ _ _ h with h1 | ⟨_, h⟩
  · exact ethSellRule_floor s i h1
  · exact riskOffRule_floor s i h

theorem executeStrategy_emits (approvalOk txOk : Bool) (now : ℚ) (s : BotState)
    (i : TradeInstruction) (h : (executeStrategy approvalOk txOk now s).2 = some i) :
    strategyDecision ((checkRisk now s).1) = some i := by
  unfold executeStrategy at h
  split at h
  · exact absurd h (by simp)
  · split at h
    · exact absurd h (by simp)
    · dsimp only at h
      split at h
      · exact absurd h (by simp)
      · cases hd : strategyDecision ((checkRisk now s).1) with
        | none =>
            rw [hd] at h
            dsimp only at h
            exact h
        | some j =>
            rw [hd] at h
            dsimp only at h
            exact h

/-- C2 (amended): every invocation of the strategy executes at most one
trade instruction (the first matching rule wins), and every emitted
instruction satisfies the floors the code actually enforces: a WRAP
exceeds `config.minTradeETH`, while SWAP rules use hardcoded per-rule
floors (USDC-funded buys > 0.5 USDC, WETH sells > 0.0003 WETH, LINK
sells > 0.003 LINK) — not the configured minimum trade size. -/
theorem decision_at_most_one_and_floors :
    (∀ (approvalOk txOk : Bool) (now : ℚ) (s : BotState),
      ((executeStrategy approvalOk txOk now s).1).tradesExecuted ≤
        s.tradesExecuted + 1) ∧
    (∀ (approvalOk txOk : Bool) (now : ℚ) (s : BotState) (i : TradeInstruction),
      (executeStrategy approvalOk txOk now s).2 = some i → FloorOK s.config i) := by
  constructor
  · exact executeStrategy_tradesExecuted_le
  · intro approvalOk txOk now s i h
    have h2 := strategyDecision_floor _ _ (executeStrategy_emits approvalOk txOk now s i h)
    rwa [checkRisk_config] at h2

/-- Evaluating a full strategy invocation on `baseState`: the ETH sell
rule fires and emits a swap of 0.001 WETH. -/
theorem executeStrategy_baseState_snd :
    (executeStrategy true true 0 baseState).2 =
      some ⟨.swap, .WETH, .USDC, 0.001⟩ := by
  norm_num [executeStrategy, checkRisk, getPortfolioUSD, drawdownOf, baseState,
    Config.default, strategyDecision, linkBuyRule, linkSellRule, ethBuyRule,
    ethSellRule, riskOffRule, linkPctOf, ethPctOf, Option.orElse,
    dispatchInstruction, swapExact, expectedOutFor, recordTrade, wrapETH,
    min_def, max_def, abs_neg, abs_of_nonneg]

/-- Witness for C2 at `baseState`: the counter grows by at most one and
the emitted instruction satisfies the enforced floors. -/
theorem decision_at_most_one_and_floors_witness :
    ((executeStrategy true true 0 baseState).1).tradesExecuted ≤
      baseState.tradesExecuted + 1 ∧
    FloorOK baseState.config ⟨.swap, .WETH, .USDC, 0.001⟩ :=
  ⟨decision_at_most_one_and_floors.1 true true 0 baseState,
   decision_at_most_one_and_floors.2 true true 0 baseState _
     executeStrategy_baseState_snd⟩

/-- Counterexample for C2 as stated: on `baseState` the engine emits a
WETH→USDC swap of 0.001, strictly below the configured minimum trade
size (`minTradeETH = 0.005`). -/
theorem trade_below_configured_minimum_cex :
    (executeStrategy true true 0 baseState).2 =
      some ⟨.swap, .WETH, .USDC, 0.001⟩ ∧
    (0.001 : ℚ) < baseState.config.minTradeETH := by
  refine ⟨executeStrategy_baseState_snd, ?_⟩
  norm_num [baseState, Config.default]

-- ══════════════════════════════════════════
--  C3: RISK-OFF FALLBACK
-- ══════════════════════════════════════════

/-- C3 (amended): whenever no earlier rule of the cascade fires and both
tracked assets' signals are below −0.2, the engine liquidates 30% of the
WETH holding into USDC whenever WETH exceeds 0.001 — regardless of
whether WETH is the largest non-base holding; only otherwise does it
liquidate 30% of the LINK holding (when LINK > 0.01 and its price is
positive), and it emits nothing when neither balance threshold is met. -/
theorem risk_off_fallback_behavior :
    (∀ s : BotState, s.sigEth < -0.2 → s.sigLink < -0.2 →
      (s.wethBalance > 0.001 →
        riskOffRule s = some ⟨.swap, .WETH, .USDC, s.wethBalance * 0.3⟩) ∧
      (¬ s.wethBalance > 0.001 → s.linkBalance > 0.01 ∧ s.linkPrice > 0 →
        riskOffRule s = some ⟨.swap, .LINK, .USDC, s.linkBalance * 0.3⟩) ∧
      (¬ s.wethBalance > 0.001 → ¬ (s.linkBalance > 0.01 ∧ s.linkPrice > 0) →
        riskOffRule s = none)) ∧
    (∀ s : BotState, linkBuyRule s = none → linkSellRule s = none →
      ethBuyRule s = none → ethSellRule s = none →
      strategyDecision s = riskOffRule s) := by
  constructor
  · intro s h1 h2
    refine ⟨fun hw => ?_, fun hw hl => ?_, fun hw hl => ?_⟩
    · unfold riskOffRule
      rw [if_pos ⟨h1, h2⟩, if_pos hw]
    · unfold riskOffRule
      rw [if_pos ⟨h1, h2⟩, if_neg hw, if_pos hl]
    · unfold riskOffRule
      rw [if_pos ⟨h1, h2⟩, if_neg hw, if_neg hl]
  · intro s h1 h2 h3 h4
    unfold strategyDecision
    rw [h1, h2, h3, h4]
    rfl

/-- A state in which both signals sit between −0.35 and −0.2 (so only
the risk-off rule can fire), with a tiny WETH holding (worth 0.2 USDC)
and a large LINK holding (worth 10000 USDC). -/
def riskOffState : BotState :=
  { baseState with wethBalance := 0.002, linkBalance := 1000,
                   ethPrice := 100, linkPrice := 10,
                   sigEth := -0.25, sigLink := -0.25 }

/-- Witness for C3 (amended) at `riskOffState`: no earlier rule fires,
and the risk-off rule liquidates 30% of the WETH holding. -/
theorem risk_off_fallback_behavior_witness :
    strategyDecision riskOffState = riskOffRule riskOffState ∧
    riskOffRule riskOffState =
      some ⟨.swap, .WETH, .USDC, riskOffState.wethBalance * 0.3⟩ :=
  ⟨risk_off_fallback_behavior.2 riskOffState
     (by norm_num [linkBuyRule, riskOffState, baseState, Config.default])
     (by norm_num [linkSellRule, riskOffState, baseState, Config.default])
     (by norm_num [ethBuyRule, riskOffState, baseState, Config.default])
     (by norm_num [ethSellRule, riskOffState, baseState, Config.default]),
   ((risk_off_fallback_behavior.1 riskOffState
       (by norm_num [riskOffState, baseState])
       (by norm_num [riskOffState, baseState])).1
     (by norm_num [riskOffState, baseState]))⟩

/-- Counterexample for C3 as stated: on `riskOffState` the risk-off rule
fires and liquidates 30% of the WETH holding (0.0006 WETH) even though
the LINK holding is the largest non-base holding by value. -/
theorem risk_off_not_largest_holding_cex :
    (executeStrategy true true 0 riskOffState).2 =
      some ⟨.swap, .WETH, .USDC, 0.0006⟩ ∧
    riskOffState.wethBalance * riskOffState.ethPrice <
      riskOffState.linkBalance * riskOffState.linkPrice := by
  constructor
  · norm_num [executeStrategy, checkRisk, getPortfolioUSD, drawdownOf,
      riskOffState, baseState, Config.default, strategyDecision, linkBuyRule,
      linkSellRule, ethBuyRule, ethSellRule, riskOffRule, linkPctOf, ethPctOf,
      Option.orElse, dispatchInstruction, swapExact, expectedOutFor,
      recordTrade, wrapETH, min_def, max_def, abs_neg, abs_of_nonneg]
  · norm_num [riskOffState, baseState]

-- ══════════════════════════════════════════
--  C10: PRICE-INGESTION EDGE CASE
-- ══════════════════════════════════════════

theorem pushEthSample_zero (sqrtFn : ℚ → ℚ) (now : ℚ) (t : BotState)
    (h : t.ethPrice = 0) : pushEthSample sqrtFn now t = t := by
  unfold pushEthSample
  simp [h]

theorem pushLinkSample_eth_frame (sqrtFn : ℚ → ℚ) (now : ℚ) (t : BotState) :
    (pushLinkSample sqrtFn now t).ethPriceHistory = t.ethPriceHistory ∧
    (pushLinkSample sqrtFn now t).ethIndicators = t.ethIndicators ∧
    (pushLinkSample sqrtFn now t).ethEma = t.ethEma ∧
    (pushLinkSample sqrtFn now t).config = t.config := by
  unfold pushLinkSample
  split <;> exact ⟨rfl, rfl, rfl, rfl⟩

theorem pushLinkSample_length_le (sqrtFn : ℚ → ℚ) (now : ℚ) (t : BotState)
    (h : t.linkPriceHistory.length ≤ 500) :
    (pushLinkSample sqrtFn now t).linkPriceHistory.length ≤ 500 := by
  unfold pushLinkSample
  split
  · dsimp only
    split <;> rename_i hc <;> simp_all [List.length_tail] <;> omega
  · exact h

theorem pushLinkSample_fifo (sqrtFn : ℚ → ℚ) (now : ℚ) (t : BotState)
    (hpos : t.linkPrice > 0) (hlen : t.linkPriceHistory.length = 500) :
    (pushLinkSample sqrtFn now t).linkPriceHistory =
      t.linkPriceHistory.tail ++ [⟨now, t.linkPrice⟩] := by
  unfold pushLinkSample
  rw [if_pos hpos]
  dsimp only
  rw [if_pos (by simp [hlen])]
  cases htl : t.linkPriceHistory with
  | nil => rw [htl] at hlen; simp at hlen
  | cons a as => rfl

theorem fetchPrices_reduce (sqrtFn : ℚ → ℚ) (ethSlot linkSlot now : ℚ) (s : BotState) :
    (fetchPrices sqrtFn true true ethSlot linkSlot now s).1 =
      refreshSignals
        (pushLinkSample sqrtFn now (pushEthSample sqrtFn now
          { { s with ethPrice := if decodeSqrtPrice ethSlot 6 18 > 0
                                 then 1 / decodeSqrtPrice ethSlot 6 18 else 0 } with
            linkPrice := if decodeSqrtPrice linkSlot 6 18 > 0
                         then 1 / decodeSqrtPrice linkSlot 6 18 else 0 })).config
        (pushLinkSample sqrtFn now (pushEthSample sqrtFn now
          { { s with ethPrice := if decodeSqrtPrice ethSlot 6 18 > 0
                                 then 1 / decodeSqrtPrice ethSlot 6 18 else 0 } with
            linkPrice := if decodeSqrtPrice linkSlot 6 18 > 0
                         then 1 / decodeSqrtPrice linkSlot 6 18 else 0 })) := rfl

theorem pushLinkSample_zero (sqrtFn : ℚ → ℚ) (now : ℚ) (t : BotState)
    (h : t.linkPrice = 0) : pushLinkSample sqrtFn now t = t := by
  unfold pushLinkSample
  simp [h]

theorem pushEthSample_link_frame (sqrtFn : ℚ → ℚ) (now : ℚ) (t : BotState) :
    (pushEthSample sqrtFn now t).linkPriceHistory = t.linkPriceHistory ∧
    (pushEthSample sqrtFn now t).linkIndicators = t.linkIndicators ∧
    (pushEthSample sqrtFn now t).linkEma = t.linkEma ∧
    (pushEthSample sqrtFn now t).config = t.config ∧
    (pushEthSample sqrtFn now t).linkPrice = t.linkPrice := by
  unfold pushEthSample
  split <;> exact ⟨rfl, rfl, rfl, rfl, rfl⟩

theorem pushEthSample_length_le (sqrtFn : ℚ → ℚ) (now : ℚ) (t : BotState)
    (h : t.ethPriceHistory.length ≤ 500) :
    (pushEthSample sqrtFn now t).ethPriceHistory.length ≤ 500 := by
  unfold pushEthSample
  split
  · dsimp only
    split <;> rename_i hc <;> simp_all [List.length_tail] <;> omega
  · exact h

theorem pushEthSample_fifo (sqrtFn : ℚ → ℚ) (now : ℚ) (t : BotState)
    (hpos : t.ethPrice > 0) (hlen : t.ethPriceHistory.length = 500) :
    (pushEthSample sqrtFn now t).ethPriceHistory =
      t.ethPriceHistory.tail ++ [⟨now, t.ethPrice⟩] := by
  unfold pushEthSample
  rw [if_pos hpos]
  dsimp only
  rw [if_pos (by simp [hlen])]
  cases htl : t.ethPriceHistory with
  | nil => rw [htl] at hlen; simp at hlen
  | cons a as => rfl

/-- C10: on a tick where the decoded pool price for an asset (ETH or
LINK) is not strictly positive, no price sample is appended for that
asset — its price history, indicator snapshot and smoothing accumulators
are exactly those of the previous tick; the 500-sample capacity bound
(with FIFO eviction of the oldest sample) is preserved for both assets;
and both signals are nonetheless recomputed, the stale asset's from its
(stale) indicator state. -/
theorem nonpositive_price_skips_sample :
    (∀ (sqrtFn : ℚ → ℚ) (ethSlot linkSlot now : ℚ) (s : BotState),
      decodeSqrtPrice ethSlot 6 18 ≤ 0 →
      ((fetchPrices sqrtFn true true ethSlot linkSlot now s).1).ethPriceHistory =
        s.ethPriceHistory ∧
      ((fetchPrices sqrtFn true true ethSlot linkSlot now s).1).ethIndicators =
        s.ethIndicators ∧
      ((fetchPrices sqrtFn true true ethSlot linkSlot now s).1).ethEma = s.ethEma ∧
      (s.ethPriceHistory.length ≤ 500 →
        ((fetchPrices sqrtFn true true ethSlot linkSlot now s).1).ethPriceHistory.length ≤ 500) ∧
      (s.linkPriceHistory.length ≤ 500 →
        ((fetchPrices sqrtFn true true ethSlot linkSlot now s).1).linkPriceHistory.length ≤ 500) ∧
      (s.linkPriceHistory.length = 500 → decodeSqrtPrice linkSlot 6 18 > 0 →
        ((fetchPrices sqrtFn true true ethSlot linkSlot now s).1).linkPriceHistory =
          s.linkPriceHistory.tail ++ [⟨now, 1 / decodeSqrtPrice linkSlot 6 18⟩]) ∧
      ((fetchPrices sqrtFn true true ethSlot linkSlot now s).1).sigEth =
        (generateSignal s.config s.ethIndicators s.ethPriceHistory).composite) ∧
    (∀ (sqrtFn : ℚ → ℚ) (ethSlot linkSlot now : ℚ) (s : BotState),
      decodeSqrtPrice linkSlot 6 18 ≤ 0 →
      ((fetchPrices sqrtFn true true ethSlot linkSlot now s).1).linkPriceHistory =
        s.linkPriceHistory ∧
      ((fetchPrices sqrtFn true true ethSlot linkSlot now s).1).linkIndicators =
        s.linkIndicators ∧
      ((fetchPrices sqrtFn true true ethSlot linkSlot now s).1).linkEma = s.linkEma ∧
      (s.linkPriceHistory.length ≤ 500 →
        ((fetchPrices sqrtFn true true ethSlot linkSlot now s).1).linkPriceHistory.length ≤ 500) ∧
      (s.ethPriceHistory.length ≤ 500 →
        ((fetchPrices sqrtFn true true ethSlot linkSlot now s).1).ethPriceHistory.length ≤ 500) ∧
      (s.ethPriceHistory.length = 500 → decodeSqrtPrice ethSlot 6 18 > 0 →
        ((fetchPrices sqrtFn true true ethSlot linkSlot now s).1).ethPriceHistory =
          s.ethPriceHistory.tail ++ [⟨now, 1 / decodeSqrtPrice ethSlot 6 18⟩]) ∧
      ((fetchPrices sqrtFn true true ethSlot linkSlot now s).1).sigLink =
        (generateSignal s.config s.linkIndicators s.linkPriceHistory).composite) := by
  constructor
  · intro sqrtFn ethSlot linkSlot now s hEth
    have hw : ¬ decodeSqrtPrice ethSlot 6 18 > 0 := not_lt.mpr hEth
    rw [fetchPrices_reduce, if_neg hw, pushEthSample_zero sqrtFn now _ rfl]
    set t : BotState :=
      { { s with ethPrice := 0 } with
        linkPrice := if decodeSqrtPrice linkSlot 6 18 > 0
                     then 1 / decodeSqrtPrice linkSlot 6 18 else 0 } with ht
    have hfr := pushLinkSample_eth_frame sqrtFn now t
    refine ⟨hfr.1, hfr.2.1, hfr.2.2.1, ?_, ?_, ?_, ?_⟩
    · intro h
      rw [show (refreshSignals (pushLinkSample sqrtFn now t).config
          (pushLinkSample sqrtFn now t)).ethPriceHistory =
          (pushLinkSample sqrtFn now t).ethPriceHistory from rfl, hfr.1]
      exact h
    · intro h
      exact pushLinkSample_length_le sqrtFn now t h
    · intro hlen hpos
      have hpos2 : t.linkPrice > 0 := by
        rw [ht]
        show (if decodeSqrtPrice linkSlot 6 18 > 0
              then 1 / decodeSqrtPrice linkSlot 6 18 else 0) > 0
        rw [if_pos hpos]
        positivity
      calc (refreshSignals (pushLinkSample sqrtFn now t).config
            (pushLinkSample sqrtFn now t)).linkPriceHistory
          = (pushLinkSample sqrtFn now t).linkPriceHistory := rfl
        _ = t.linkPriceHistory.tail ++ [⟨now, t.linkPrice⟩] :=
            pushLinkSample_fifo sqrtFn now t hpos2 hlen
        _ = s.linkPriceHistory.tail ++ [⟨now, 1 / decodeSqrtPrice linkSlot 6 18⟩] := by
            rw [ht]
            show s.linkPriceHistory.tail ++
                [⟨now, if decodeSqrtPrice linkSlot 6 18 > 0
                       then 1 / decodeSqrtPrice linkSlot 6 18 else 0⟩] = _
            rw [if_pos hpos]
    · rw [show (refreshSignals (pushLinkSample sqrtFn now t).config
          (pushLinkSample sqrtFn now t)).sigEth =
          (generateSignal (pushLinkSample sqrtFn now t).config
            (pushLinkSample sqrtFn now t).ethIndicators
            (pushLinkSample sqrtFn now t).ethPriceHistory).composite from rfl,
        hfr.1, hfr.2.1, hfr.2.2.2]
  · intro sqrtFn ethSlot linkSlot now s hLink
    have hw : ¬ decodeSqrtPrice linkSlot 6 18 > 0 := not_lt.mpr hLink
    rw [fetchPrices_reduce, if_neg hw]
    set t : BotState :=
      { { s with ethPrice := if decodeSqrtPrice ethSlot 6 18 > 0
                             then 1 / decodeSqrtPrice ethSlot 6 18 else 0 } with
        linkPrice := 0 } with ht
    have hfr := pushEthSample_link_frame sqrtFn now t
    rw [pushLinkSample_zero sqrtFn now (pushEthSample sqrtFn now t) hfr.2.2.2.2]
    refine ⟨hfr.1, hfr.2.1, hfr.2.2.1, ?_, ?_, ?_, ?_⟩
    · intro h
      rw [show (refreshSignals (pushEthSample sqrtFn now t).config
          (pushEthSample sqrtFn now t)).linkPriceHistory =
          (pushEthSample sqrtFn now t).linkPriceHistory from rfl, hfr.1]
      exact h
    · intro h
      exact pushEthSample_length_le sqrtFn now t h
    · intro hlen hpos
      have hpos2 : t.ethPrice > 0 := by
        rw [ht]
        show (if decodeSqrtPrice ethSlot 6 18 > 0
              then 1 / decodeSqrtPrice ethSlot 6 18 else 0) > 0
        rw [if_pos hpos]
        positivity
      calc (refreshSignals (pushEthSample sqrtFn now t).config
            (pushEthSample sqrtFn now t)).ethPriceHistory
          = (pushEthSample sqrtFn now t).ethPriceHistory := rfl
        _ = t.ethPriceHistory.tail ++ [⟨now, t.ethPrice⟩] :=
            pushEthSample_fifo sqrtFn now t hpos2 hlen
        _ = s.ethPriceHistory.tail ++ [⟨now, 1 / decodeSqrtPrice ethSlot 6 18⟩] := by
            rw [ht]
            show s.ethPriceHistory.tail ++
                [⟨now, if decodeSqrtPrice ethSlot 6 18 > 0
                       then 1 / decodeSqrtPrice ethSlot 6 18 else 0⟩] = _
            rw [if_pos hpos]
    · rw [show (refreshSignals (pushEthSample sqrtFn now t).config
          (pushEthSample sqrtFn now t)).sigLink =
          (generateSignal (pushEthSample sqrtFn now t).config
            (pushEthSample sqrtFn now t).linkIndicators
            (pushEthSample sqrtFn now t).linkPriceHistory).composite from rfl,
        hfr.1, hfr.2.1, hfr.2.2.2.1]

/-- Witness for C10: a zero `sqrtPriceX96` decodes to price 0 for both
pools, so neither history of `baseState` gains a sample and both
signals are recomputed from the stale state. -/
theorem nonpositive_price_skips_sample_witness :
    decodeSqrtPrice 0 6 18 ≤ 0 ∧
    ((fetchPrices id true true 0 0 0 baseState).1).ethPriceHistory =
      baseState.ethPriceHistory ∧
    ((fetchPrices id true true 0 0 0 baseState).1).sigEth =
      (generateSignal baseState.config baseState.ethIndicators
        baseState.ethPriceHistory).composite ∧
    ((fetchPrices id true true 0 0 0 baseState).1).linkPriceHistory =
      baseState.linkPriceHistory ∧
    ((fetchPrices id true true 0 0 0 baseState).1).sigLink =
      (generateSignal baseState.config baseState.linkIndicators
        baseState.linkPriceHistory).composite := by
  have h0 : decodeSqrtPrice 0 6 18 ≤ 0 := by
    norm_num [decodeSqrtPrice]
  have hA := nonpositive_price_skips_sample.1 id 0 0 0 baseState h0
  have hB := nonpositive_price_skips_sample.2 id 0 0 0 baseState h0
  exact ⟨h0, hA.1, hA.2.2.2.2.2.2, hB.1, hB.2.2.2.2.2.2⟩
